import Mathlib

/-!
Verification of the connection-configuration resolution and error-routing
policy of the `messaging` package (file `messaging/nats.go`).

The embedding models the package's own code directly.  The three external
collaborators — the discovery lookup (`discovery.DiscoverEndpoints`), the
TLS-settings builder (`(*tls.Config).TLSConfig`) and the transport connect
primitive (`nats.Connect`) — are opaque dependencies and are passed in as an
`Oracles` record of functions, so every theorem is quantified over their
behaviour.  Go's `(value, error)` returns become `Except`; Go `nil` pointers
become `Option`; the in-place mutation `config.Servers = servers` becomes
explicit state passing (the outcome records the final config).
-/

namespace Messaging

deriving instance DecidableEq for Except

/-- Errors are opaque values; the transport exposes one distinguished
sentinel, `nats.ErrSlowConsumer`, which the error handler compares against
by identity. -/
inductive Err where
  | slowConsumer
  | other (msg : String)
deriving DecidableEq, Repr

/-- Connection status enum of the transport (`conn.Status()`). -/
inductive ConnStatus where
  | disconnected
  | connected
  | closed
  | reconnecting
  | connecting
deriving DecidableEq, Repr

/-- A live connection handle (`*nats.Conn`); the only observation the code
makes of it is `Status()`. -/
structure Conn where
  status : ConnStatus
deriving DecidableEq, Repr

/-- A subscription (`*nats.Subscription`): the handler reads `Subject`,
`Queue` and calls `Pending()`, whose outcome at the moment of the call is
modelled as the `pending` field (message count, byte count, or an error). -/
structure Subscription where
  subject : String
  queue : String
  pending : Except Err (Nat × Nat)
deriving DecidableEq, Repr

/-- TLS settings from configuration (`tls.Config` of the repo's `tls`
package, an opaque input to this package). -/
structure TLSSettings where
  caFiles : List String
  keyFile : String
  certFile : String
deriving DecidableEq, Repr

/-- A built `*tls.Config` object ready for the transport, opaque here. -/
structure TLSCfg where
  id : Nat
deriving DecidableEq, Repr

/-- One discovered endpoint (`Target`, `Port`) as returned by
`discovery.DiscoverEndpoints`. -/
structure Endpoint where
  target : String
  port : Nat
deriving DecidableEq, Repr

/-- `NatsConfig` from `messaging/nats.go`. -/
structure NatsConfig where
  tls : Option TLSSettings
  discoveryName : String
  servers : List String
  logsSubject : String
deriving DecidableEq, Repr

/-- A `nats.Option` accumulated by `ConnectToNats`: either
`nats.Secure(tlsConfig)` or `nats.ErrorHandler(errHandler)`. -/
inductive NatsOption where
  | secure (cfg : TLSCfg)
  | errorHandler
deriving DecidableEq, Repr

/-- The three external collaborators, passed as function parameters. -/
structure Oracles where
  discover : String → Except Err (List Endpoint)
  tlsBuild : TLSSettings → Except Err (Option TLSCfg)
  connect : String → List NatsOption → Except Err Conn

/-- `ServerString` method: `strings.Join(config.Servers, ",")`. -/
def NatsConfig.ServerString (config : NatsConfig) : String :=
  String.intercalate "," config.servers

/-- `fmt.Sprintf("nats://%s:%d", endpoint.Target, endpoint.Port)`. -/
def formatURL (endpoint : Endpoint) : String :=
  "nats://" ++ endpoint.target ++ ":" ++ toString endpoint.port

/-- `discoverNatsURLs`: look the service name up and format one URL per
endpoint, in order. -/
def discoverNatsURLs (discover : String → Except Err (List Endpoint))
    (serviceName : String) : Except Err (List String) :=
  match discover serviceName with
  | .error e => .error e
  | .ok endpoints => .ok (endpoints.map formatURL)

/-- The discovery step of `ConnectToNats` (lines 69–75): when
`DiscoveryName` is non-empty, a successful lookup overwrites
`config.Servers`; a failed one aborts with the lookup's error. -/
def resolveServers (o : Oracles) (config : NatsConfig) :
    Except Err NatsConfig :=
  if config.discoveryName ≠ "" then
    match discoverNatsURLs o.discover config.discoveryName with
    | .error e => .error e
    | .ok servers => .ok { config with servers := servers }
  else
    .ok config

/-- The option-building step of `ConnectToNats` (lines 77–86): a present
`TLS` config is built; a build error aborts, a `nil` result adds no option,
a non-`nil` result adds `nats.Secure`. -/
def buildOptions (o : Oracles) (config : NatsConfig) :
    Except Err (List NatsOption) :=
  match config.tls with
  | none => .ok []
  | some t =>
    match o.tlsBuild t with
    | .error e => .error e
    | .ok none => .ok []
    | .ok (some tlsConfig) => .ok [NatsOption.secure tlsConfig]

/-- What `ConnectToNats` did: the value it returns, the final state of the
(caller-owned, pointer-passed) config, and the arguments of the
`nats.Connect` call when one was made. -/
structure ConnectOutcome where
  result : Except Err Conn
  finalConfig : NatsConfig
  connectCall : Option (String × List NatsOption)
deriving DecidableEq, Repr

/-- Lines 88–92 of `ConnectToNats`: append the error-handler option when a
handler was supplied, then call `nats.Connect` with the joined server
string. -/
def connectPhase (o : Oracles) (config : NatsConfig) (errHandler : Bool) :
    ConnectOutcome :=
  match buildOptions o config with
  | .error e =>
    { result := .error e, finalConfig := config, connectCall := none }
  | .ok opts =>
    let opts := if errHandler then opts ++ [NatsOption.errorHandler] else opts
    { result := o.connect config.ServerString opts
      finalConfig := config
      connectCall := some (config.ServerString, opts) }

/-- `ConnectToNats(config, errHandler)`.  `errHandler : Bool` models whether
the caller supplied a non-`nil` `nats.ErrHandler` (its value never affects
resolution). -/
def ConnectToNats (o : Oracles) (config : NatsConfig) (errHandler : Bool) :
    ConnectOutcome :=
  match resolveServers o config with
  | .error e =>
    { result := .error e, finalConfig := config, connectCall := none }
  | .ok config' => connectPhase o config' errHandler

/-- What `ConfigureNatsConnection` did: its return value, whether it invoked
`ConnectToNats` (and that call's outcome), and the subject of the logrus
hook it registered, if any. -/
structure ConfigureOutcome where
  conn : Option Conn
  error : Option Err
  connectAttempt : Option ConnectOutcome
  hookSubject : Option String
deriving DecidableEq, Repr

/-- `ConfigureNatsConnection(config, log)`: a `nil` config is a silent
no-op; otherwise connect (with the non-`nil` handler `ErrorHandler(log)`),
propagate any error, and register the logrus hook when `LogsSubject` is
non-empty. -/
def ConfigureNatsConnection (o : Oracles) (config : Option NatsConfig) :
    ConfigureOutcome :=
  match config with
  | none =>
    { conn := none, error := none, connectAttempt := none, hookSubject := none }
  | some cfg =>
    let out := ConnectToNats o cfg true
    match out.result with
    | .error e =>
      { conn := none, error := some e, connectAttempt := some out
        hookSubject := none }
    | .ok nc =>
      { conn := some nc, error := none, connectAttempt := some out
        hookSubject :=
          if out.finalConfig.logsSubject ≠ "" then
            some out.finalConfig.logsSubject
          else none }

/-- The structured record emitted by the error handler's single
`l.WithError(err).Error(...)` call. -/
structure LogRecord where
  component : String
  subject : String
  group : String
  connStatus : ConnStatus
  pendingMessages : Option Nat
  error : Err
  message : String
deriving DecidableEq, Repr

/-- The callback produced by `ErrorHandler(log)` (lines 95–117).  The
`conn` and `sub` pointers may be `nil` (`none`); the body dereferences both
before any classification, so a `nil` argument panics — modelled as `none`
(no record emitted). -/
def ErrorHandler (conn : Option Conn) (sub : Option Subscription)
    (natsErr : Err) : Option LogRecord :=
  match sub, conn with
  | some s, some c =>
    let base : LogRecord :=
      { component := "error-logger"
        subject := s.subject
        group := s.queue
        connStatus := c.status
        pendingMessages := none
        error := natsErr
        message := "Error while consuming from " ++ s.subject }
    some <|
      if natsErr = Err.slowConsumer then
        match s.pending with
        | .error perr => { base with error := perr }
        | .ok (pendingMsgs, _) =>
          { base with pendingMessages := some pendingMsgs }
      else base
  | _, _ => none

/-! ### Helper lemmas -/

/-- Whatever `resolveServers` returns on success differs from the input
config at most in `servers`. -/
theorem resolveServers_ok_fields (o : Oracles) (config config' : NatsConfig)
    (h : resolveServers o config = .ok config') :
    config'.tls = config.tls ∧ config'.discoveryName = config.discoveryName ∧
      config'.logsSubject = config.logsSubject := by
  unfold resolveServers at h
  by_cases hd : config.discoveryName ≠ ""
  · rw [if_pos hd] at h
    cases hdisc : discoverNatsURLs o.discover config.discoveryName with
    | error e => rw [hdisc] at h; cases h
    | ok servers =>
      rw [hdisc] at h
      cases h
      exact ⟨rfl, rfl, rfl⟩
  · rw [if_neg hd] at h
    cases h
    exact ⟨rfl, rfl, rfl⟩

/-- `connectPhase` never touches the config it is given. -/
theorem connectPhase_finalConfig (o : Oracles) (config : NatsConfig)
    (eh : Bool) : (connectPhase o config eh).finalConfig = config := by
  unfold connectPhase
  cases buildOptions o config <;> rfl

/-- When `ConnectToNats` reached the connect call, its return value is
exactly what the transport's connect primitive returned for those
arguments. -/
theorem connectCall_determines_result (o : Oracles) (config : NatsConfig)
    (eh : Bool) (s : String) (opts : List NatsOption)
    (hc : (ConnectToNats o config eh).connectCall = some (s, opts)) :
    (ConnectToNats o config eh).result = o.connect s opts := by
  unfold ConnectToNats connectPhase at hc ⊢
  cases hr : resolveServers o config with
  | error e => simp only [hr] at hc; cases hc
  | ok config' =>
    simp only [hr] at hc ⊢
    cases hb : buildOptions o config' with
    | error e => simp only [hb] at hc; cases hc
    | ok opts' =>
      simp only [hb] at hc ⊢
      simp only [Option.some.injEq, Prod.mk.injEq] at hc
      rw [← hc.1, ← hc.2]

/-! ### Concrete fixtures used by witnesses and counterexamples -/

/-- Two discovered endpoints. -/
def ep1 : Endpoint := ⟨"h1", 4222⟩

def ep2 : Endpoint := ⟨"h2", 4223⟩

/-- Oracles where every collaborator succeeds and discovery yields
`[ep1, ep2]`. -/
def oDisc : Oracles :=
  { discover := fun _ => .ok [ep1, ep2]
    tlsBuild := fun _ => .ok none
    connect := fun _ _ => .ok ⟨ConnStatus.connected⟩ }

/-- Oracles whose discovery lookup fails. -/
def oDiscFail : Oracles :=
  { oDisc with discover := fun _ => .error (.other "discovery down") }

/-- A config that requests discovery and carries a stale explicit list. -/
def cfgDisc : NatsConfig :=
  { tls := none, discoveryName := "nats-svc", servers := ["old:1"]
    logsSubject := "" }

/-- A config with an explicit server list and no discovery. -/
def cfgPlain : NatsConfig :=
  { tls := none, discoveryName := "", servers := ["a:1", "b:2"]
    logsSubject := "" }

/-- A config demanding TLS, used with a builder that yields no settings. -/
def cfgTLS : NatsConfig :=
  { tls := some ⟨["ca.pem"], "key.pem", "cert.pem"⟩, discoveryName := ""
    servers := ["a:1"], logsSubject := "" }

/-- A subscription whose pending-count fetch fails. -/
def subPendingFail : Subscription :=
  ⟨"orders", "workers", .error (.other "pending fetch failed")⟩

/-- A subscription whose pending-count fetch succeeds with 42 messages. -/
def subPending42 : Subscription := ⟨"orders", "workers", .ok (42, 1000)⟩

/-! ### Claim theorems -/

/-- C4: on a slow-consumer error whose pending-count fetch fails with `E`,
the emitted record carries `E` as its error (the original slow-consumer
error is lost) and no pending-message-count field. -/
theorem slow_consumer_pending_failure_substitutes_error (c : Conn)
    (s : Subscription) (perr : Err) (hp : s.pending = .error perr) :
    ErrorHandler (some c) (some s) Err.slowConsumer =
      some { component := "error-logger", subject := s.subject
             group := s.queue, connStatus := c.status
             pendingMessages := none, error := perr
             message := "Error while consuming from " ++ s.subject } := by
  simp [ErrorHandler, hp]

/-- Witness for C4 at a concrete failing pending fetch. -/
theorem slow_consumer_pending_failure_substitutes_error_witness :
    ErrorHandler (some ⟨ConnStatus.connected⟩) (some subPendingFail)
        Err.slowConsumer =
      some { component := "error-logger", subject := "orders"
             group := "workers", connStatus := ConnStatus.connected
             pendingMessages := none, error := .other "pending fetch failed"
             message := "Error while consuming from orders" } :=
  slow_consumer_pending_failure_substitutes_error ⟨ConnStatus.connected⟩
    subPendingFail (.other "pending fetch failed") rfl

/-- C8: on a slow-consumer error whose pending-count fetch succeeds with
`n`, the emitted record carries `pending_messages = n` together with the
original slow-consumer error. -/
theorem slow_consumer_pending_success_attaches_count (c : Conn)
    (s : Subscription) (n bytes : Nat) (hp : s.pending = .ok (n, bytes)) :
    ErrorHandler (some c) (some s) Err.slowConsumer =
      some { component := "error-logger", subject := s.subject
             group := s.queue, connStatus := c.status
             pendingMessages := some n, error := Err.slowConsumer
             message := "Error while consuming from " ++ s.subject } := by
  simp [ErrorHandler, hp]

/-- Witness for C8 with a pending count of 42. -/
theorem slow_consumer_pending_success_attaches_count_witness :
    ErrorHandler (some ⟨ConnStatus.connected⟩) (some subPending42)
        Err.slowConsumer =
      some { component := "error-logger", subject := "orders"
             group := "workers", connStatus := ConnStatus.connected
             pendingMessages := some 42, error := Err.slowConsumer
             message := "Error while consuming from orders" } :=
  slow_consumer_pending_success_attaches_count ⟨ConnStatus.connected⟩
    subPending42 42 1000 rfl

/-- C9: any non-slow-consumer error is logged with the subscription's
subject, its queue name and the connection status, with the original
error unchanged and no pending-message field; the record does not depend
on the subscription's pending state, so no pending fetch is consulted. -/
theorem non_slow_consumer_error_logged_verbatim (c : Conn)
    (subj q : String) (p : Except Err (Nat × Nat)) (e : Err)
    (he : e ≠ Err.slowConsumer) :
    ErrorHandler (some c) (some ⟨subj, q, p⟩) e =
      some { component := "error-logger", subject := subj, group := q
             connStatus := c.status, pendingMessages := none, error := e
             message := "Error while consuming from " ++ subj } := by
  simp [ErrorHandler, he]

/-- Witness for C9 at a concrete non-slow-consumer error. -/
theorem non_slow_consumer_error_logged_verbatim_witness :
    ErrorHandler (some ⟨ConnStatus.reconnecting⟩)
        (some ⟨"orders", "workers", .ok (7, 70)⟩) (.other "permissions") =
      some { component := "error-logger", subject := "orders"
             group := "workers", connStatus := ConnStatus.reconnecting
             pendingMessages := none, error := .other "permissions"
             message := "Error while consuming from orders" } :=
  non_slow_consumer_error_logged_verbatim ⟨ConnStatus.reconnecting⟩
    "orders" "workers" (.ok (7, 70)) (.other "permissions") (by decide)

/-- C10: the handler emits a record exactly when both the subscription and
the connection arguments are non-nil; a nil argument makes the invocation
panic (no record) before any classification. -/
theorem handler_total_iff_args_nonnil (conn : Option Conn)
    (sub : Option Subscription) (e : Err) :
    (ErrorHandler conn sub e).isSome ↔ (sub.isSome ∧ conn.isSome) := by
  cases sub <;> cases conn <;> simp [ErrorHandler]

/-- C1: with a non-empty discovery name and a successful lookup returning
endpoints `[(h1,p1), (h2,p2), ...]`, the server string handed to the
transport connect primitive is exactly
`"nats://h1:p1,nats://h2:p2,..."`, whatever `config.Servers` held. -/
theorem discovery_determines_connect_server_string (o : Oracles)
    (config : NatsConfig) (eh : Bool) (eps : List Endpoint)
    (s : String) (opts : List NatsOption)
    (h1 : config.discoveryName ≠ "")
    (h2 : o.discover config.discoveryName = .ok eps)
    (hc : (ConnectToNats o config eh).connectCall = some (s, opts)) :
    s = String.intercalate ","
      (eps.map fun ep => "nats://" ++ ep.target ++ ":" ++ toString ep.port) := by
  unfold ConnectToNats resolveServers discoverNatsURLs at hc
  simp only [if_pos h1, h2] at hc
  unfold connectPhase at hc
  cases hb : buildOptions o { config with servers := eps.map formatURL } with
  | error e => simp only [hb] at hc; cases hc
  | ok opts' =>
    simp only [hb, Option.some.injEq, Prod.mk.injEq] at hc
    rw [← hc.1]
    rfl

/-- Witness for C1: two discovered endpoints produce the two-URL string. -/
theorem discovery_determines_connect_server_string_witness :
    "nats://h1:4222,nats://h2:4223" =
      String.intercalate ","
        ([ep1, ep2].map fun ep =>
          "nats://" ++ ep.target ++ ":" ++ toString ep.port) :=
  discovery_determines_connect_server_string oDisc cfgDisc true [ep1, ep2]
    "nats://h1:4222,nats://h2:4223" [NatsOption.errorHandler]
    (by decide) rfl rfl

/-- C5: with an empty discovery name, the server string handed to the
transport connect primitive is the comma-join of `config.Servers` in
original order, element for element. -/
theorem empty_discovery_joins_servers_verbatim (o : Oracles)
    (config : NatsConfig) (eh : Bool) (s : String) (opts : List NatsOption)
    (h : config.discoveryName = "")
    (hc : (ConnectToNats o config eh).connectCall = some (s, opts)) :
    s = String.intercalate "," config.servers := by
  unfold ConnectToNats resolveServers at hc
  rw [if_neg (by simp [h])] at hc
  unfold connectPhase at hc
  cases hb : buildOptions o config with
  | error e => simp only [hb] at hc; cases hc
  | ok opts' =>
    simp only [hb, Option.some.injEq, Prod.mk.injEq] at hc
    rw [← hc.1]
    rfl

/-- Witness for C5 at a two-element explicit server list. -/
theorem empty_discovery_joins_servers_verbatim_witness :
    "a:1,b:2" = String.intercalate "," cfgPlain.servers :=
  empty_discovery_joins_servers_verbatim oDisc cfgPlain true "a:1,b:2"
    [NatsOption.errorHandler] rfl rfl

/-- C7: when the TLS builder succeeds but yields no usable settings for a
present `tlsSettings`, no secure option is added, no error is returned,
and resolution proceeds to the connect call. -/
theorem empty_tls_build_adds_no_secure_option (o : Oracles)
    (config config' : NatsConfig) (eh : Bool) (t : TLSSettings)
    (hr : resolveServers o config = .ok config')
    (ht : config'.tls = some t)
    (hb : o.tlsBuild t = .ok none) :
    ConnectToNats o config eh =
      { result := o.connect config'.ServerString
          (if eh then [NatsOption.errorHandler] else [])
        finalConfig := config'
        connectCall := some (config'.ServerString,
          if eh then [NatsOption.errorHandler] else []) } := by
  unfold ConnectToNats
  simp only [hr]
  unfold connectPhase buildOptions
  simp only [ht, hb]
  cases eh <;> rfl

/-- Witness for C7: an intentionally empty TLS build still connects,
securing nothing. -/
theorem empty_tls_build_adds_no_secure_option_witness :
    ConnectToNats oDisc cfgTLS true =
      { result := oDisc.connect cfgTLS.ServerString
          (if true then [NatsOption.errorHandler] else [])
        finalConfig := cfgTLS
        connectCall := some (cfgTLS.ServerString,
          if true then [NatsOption.errorHandler] else []) } :=
  empty_tls_build_adds_no_secure_option oDisc cfgTLS cfgTLS true
    ⟨["ca.pem"], "key.pem", "cert.pem"⟩ rfl rfl rfl

/-- C2: a discovery failure, a TLS-build failure and a connect failure are
each returned by `ConnectToNats` unmodified with no connection, and
`ConfigureNatsConnection` forwards such an error with no connection. -/
theorem failures_propagated_unmodified (o : Oracles)
    (config config' : NatsConfig) (eh : Bool) (e : Err) (t : TLSSettings)
    (s : String) (opts : List NatsOption) :
    ((config.discoveryName ≠ "" → o.discover config.discoveryName = .error e →
        ConnectToNats o config eh =
          { result := .error e, finalConfig := config, connectCall := none }) ∧
     (resolveServers o config = .ok config' → config'.tls = some t →
        o.tlsBuild t = .error e →
        ConnectToNats o config eh =
          { result := .error e, finalConfig := config', connectCall := none }) ∧
     ((ConnectToNats o config eh).connectCall = some (s, opts) →
        o.connect s opts = .error e →
        (ConnectToNats o config eh).result = .error e) ∧
     ((ConnectToNats o config true).result = .error e →
        (ConfigureNatsConnection o (some config)).conn = none ∧
        (ConfigureNatsConnection o (some config)).error = some e)) := by
  refine ⟨?_, ?_, ?_, ?_⟩
  · intro h1 h2
    unfold ConnectToNats resolveServers discoverNatsURLs
    simp only [if_pos h1, h2]
  · intro hr ht hb
    unfold ConnectToNats
    simp only [hr]
    unfold connectPhase buildOptions
    simp only [ht, hb]
  · intro hc hcf
    rw [connectCall_determines_result o config eh s opts hc, hcf]
  · intro hres
    unfold ConfigureNatsConnection
    simp only [hres]
    exact ⟨by trivial, by trivial⟩

/-- Witness for C2 at a concrete failing discovery lookup. -/
theorem failures_propagated_unmodified_witness :
    ConnectToNats oDiscFail cfgDisc true =
      { result := .error (.other "discovery down"), finalConfig := cfgDisc
        connectCall := none } :=
  (failures_propagated_unmodified oDiscFail cfgDisc cfgDisc true
      (.other "discovery down") ⟨[], "", ""⟩ "" []).1 (by decide) rfl

/-- C3 counterexample: with discovery configured and succeeding,
`ConnectToNats` overwrites `config.Servers`, so the caller's config is not
left unchanged. -/
theorem config_not_readonly_counterexample :
    (ConnectToNats oDisc cfgDisc true).finalConfig ≠ cfgDisc := by decide

/-- C3 amended: every field other than `Servers` is always left unchanged
by `ConnectToNats`; `Servers` too is unchanged whenever `discoveryName` is
empty or the discovery lookup fails, and is replaced by the formatted
discovered URLs exactly when discovery is configured and succeeds. -/
theorem config_fields_preserved_except_discovered_servers (o : Oracles)
    (config : NatsConfig) (eh : Bool) :
    ((ConnectToNats o config eh).finalConfig.tls = config.tls ∧
     (ConnectToNats o config eh).finalConfig.discoveryName =
       config.discoveryName ∧
     (ConnectToNats o config eh).finalConfig.logsSubject =
       config.logsSubject) ∧
    (config.discoveryName = "" →
       (ConnectToNats o config eh).finalConfig = config) ∧
    (∀ e, o.discover config.discoveryName = .error e →
       (ConnectToNats o config eh).finalConfig = config) ∧
    (∀ eps, config.discoveryName ≠ "" →
       o.discover config.discoveryName = .ok eps →
       (ConnectToNats o config eh).finalConfig =
         { config with servers := eps.map formatURL }) := by
  refine ⟨?_, ?_, ?_, ?_⟩
  · cases hr : resolveServers o config with
    | error e =>
      simp only [ConnectToNats, hr]
      exact ⟨by trivial, by trivial, by trivial⟩
    | ok config' =>
      simp only [ConnectToNats, hr, connectPhase_finalConfig]
      exact resolveServers_ok_fields o config config' hr
  · intro h
    have hr : resolveServers o config = .ok config := by
      unfold resolveServers
      rw [if_neg (by simp [h])]
    simp only [ConnectToNats, hr, connectPhase_finalConfig]
  · intro e he
    by_cases hd : config.discoveryName = ""
    · have hr : resolveServers o config = .ok config := by
        unfold resolveServers
        rw [if_neg (by simp [hd])]
      simp only [ConnectToNats, hr, connectPhase_finalConfig]
    · have hr : resolveServers o config = .error e := by
        unfold resolveServers discoverNatsURLs
        rw [if_pos hd]
        simp only [he]
      simp only [ConnectToNats, hr]
  · intro eps h1 h2
    simp only [ConnectToNats, resolveServers, discoverNatsURLs, if_pos h1,
      h2, connectPhase_finalConfig]

/-- Witness for the amended C3: the servers of the final config are the
formatted discovered URLs. -/
theorem config_fields_preserved_except_discovered_servers_witness :
    (ConnectToNats oDisc cfgDisc true).finalConfig =
      { cfgDisc with servers := [ep1, ep2].map formatURL } :=
  (config_fields_preserved_except_discovered_servers oDisc cfgDisc
      true).2.2.2 [ep1, ep2] (by decide) rfl

/-- C6: a nil config yields no connection and no error, invokes
`ConnectToNats` (and hence discovery, the TLS builder and connect) not at
all and registers no hook, whatever the collaborators would do — so
repeated calls behave identically. -/
theorem nil_config_is_silent_noop (o : Oracles) :
    ConfigureNatsConnection o none =
      { conn := none, error := none, connectAttempt := none
        hookSubject := none } := rfl

end Messaging
